import Mathlib

/-!
# Verification of the stake-reserve crank (`StakeReserve::process`)

Shallow embedding of `src/programs/marinade-finance/src/instructions/crank/stake_reserve.rs`.

Machine integers (`u64`) are modelled as `Nat` with explicit bounds where
overflow matters: `checked_add` returns `Option Nat` failing at `2^64`,
`saturating_add` clamps to `2^64 - 1`, and Rust `saturating_sub` on `u64`
coincides with truncated `Nat` subtraction.  Public keys are abstracted as
`Nat`.  The three CPI steps of the external delegation protocol (transfer,
initialize, delegate) are collaborators outside this repository; the embedding
records the amount passed to the transfer CPI as the observable transfer of a
successful run.  An `Except.error` result models the surrounding transaction
aborting: no mutation is durably applied on any error path.

Helper operations called by `process` but whose code is not in this
repository snapshot (`stake_delta`, `validator_stake_target`, registry
`get`/`set`/`add`, `on_transfer_from_reserve`, the two checksum checks) are
modelled from the spec; each such definition is marked in its doc comment.
-/

namespace Marinade

/-- `2^64`, the modulus of Rust `u64`. -/
def U64_MOD : Nat := 18446744073709551616

/-- Rust `u64::checked_add`: `none` exactly when the mathematical sum does not
fit in a `u64`. -/
def checkedAdd64 (a b : Nat) : Option Nat :=
  if a + b < U64_MOD then some (a + b) else none

/-- Rust `u64::saturating_add`: clamps the sum at `u64::MAX`. -/
def saturatingAdd64 (a b : Nat) : Nat :=
  min (a + b) (U64_MOD - 1)

/-- One record of the validator registry (`ValidatorRecord`).  Only the fields
read or written by `StakeReserve::process` are modelled; `score` is the
externally supplied target weight. -/
structure ValidatorRecord where
  validator_account : Nat
  active_balance : Nat
  last_stake_delta_epoch : Nat
  score : Nat
  deriving DecidableEq

/-- One record of the delegation (stake) registry, as appended by
`stake_system.add`. -/
structure StakeRecord where
  stake_account : Nat
  last_update_delegated_lamports : Nat
  last_update_epoch : Nat
  is_emergency_unstaking : Nat
  deriving DecidableEq

/-- The `stake_system` part of the pool aggregate state: the fields of
`State.stake_system` that `process` reads or writes. -/
structure StakeSystem where
  min_stake : Nat
  extra_stake_delta_runs : Nat
  slots_for_stake_delta : Nat
  last_stake_delta_epoch : Nat
  stake_list_capacity : Nat
  deriving DecidableEq

/-- The `validator_system` part of the pool aggregate state.
`total_validator_score` is the sum of all target weights, used by the
proportional allocation. -/
structure ValidatorSystem where
  total_active_balance : Nat
  total_validator_score : Nat
  deriving DecidableEq

/-- The pool aggregate state (the `State` account).  `reserve_floor` is the
reserve policy constant consumed by `stake_delta`;
`available_reserve_balance` is the tracked reserve accounting consumed by
`on_transfer_from_reserve`. -/
structure State where
  stake_system : StakeSystem
  validator_system : ValidatorSystem
  available_reserve_balance : Nat
  reserve_floor : Nat
  deriving DecidableEq

/-- The whole mutable world of one invocation: the aggregate state plus the
two registries. -/
structure Pool where
  state : State
  validator_list : List ValidatorRecord
  stake_list : List StakeRecord
  deriving DecidableEq

/-- Read-only inputs supplied by the environment at call time (clock, epoch
schedule, rent, the caller-supplied accounts, and the results of the two
checksum validations, whose code is outside this snapshot). -/
structure Env where
  epoch : Nat
  slot : Nat
  last_slot_in_epoch : Nat
  reserve_lamports : Nat
  rent_exempt_min : Nat
  stake_account_key : Nat
  stake_account_lamports : Nat
  stake_account_uninitialized : Bool
  stake_history_key : Nat
  validator_vote_key : Nat
  validator_list_checksum_ok : Bool
  stake_list_checksum_ok : Bool
  deriving DecidableEq

/-- The well-known identity of the stake-history sysvar
(`stake_history::ID`), abstracted as a fixed `Nat`. -/
def stakeHistoryID : Nat := 0

/-- Error values surfaced by `process`.  `invalidArgument` is
`ProgramError::InvalidArgument` (stake-history mismatch),
`invalidAccountData` is `ProgramError::InvalidAccountData` (used by BOTH the
stake-account state check and the stake-account balance check),
`stakeDeltaWindow` is `ProgramError::Custom(332)`, `calculationFailure` is
`MarinadeError::CalculationFailure`.  The remaining constructors model the
errors of the helper operations whose code is outside this snapshot. -/
inductive ProcessError where
  | invalidChecksumValidatorList
  | invalidChecksumStakeList
  | invalidArgument
  | invalidAccountData
  | indexOutOfBounds
  | addressMismatch
  | stakeDeltaWindow
  | capacityExceeded
  | reserveUnderflow
  | calculationFailure
  deriving DecidableEq

/-- Modelled from the spec: `stake_delta(reserve_balance)` returns
`reserve_balance − reserve_floor` as a signed quantity (§4.1); the code of
`State::stake_delta` is not in this snapshot. -/
def State.stake_delta (st : State) (reserve_balance : Nat) : Int :=
  (reserve_balance : Int) - (st.reserve_floor : Int)

/-- Modelled from the spec: proportional allocation
`target_weight / sum(all target_weights) * total_stake_target` with
integer-safe arithmetic (§4.2); the code of
`ValidatorSystem::validator_stake_target` is not in this snapshot.
(`Nat` division by a zero total score yields 0.) -/
def ValidatorSystem.validator_stake_target (vs : ValidatorSystem)
    (v : ValidatorRecord) (total_stake_target : Nat) : Nat :=
  v.score * total_stake_target / vs.total_validator_score

/-- Modelled from the spec: `on_transfer_from_reserve(amount)` records that
`amount` left the reserve and fails if it would make the tracked reserve
accounting inconsistent (§4.1); the code is not in this snapshot. -/
def State.on_transfer_from_reserve (st : State) (amount : Nat) : Option State :=
  if amount ≤ st.available_reserve_balance then
    some { st with available_reserve_balance := st.available_reserve_balance - amount }
  else none

/-- Modelled from the spec: registry `set(buffer, index, record)` overwrites
the record in place, failing out of range (§4.2); the code of
`ValidatorSystem::set` is not in this snapshot. -/
def listSet (l : List ValidatorRecord) (i : Nat) (v : ValidatorRecord) :
    Option (List ValidatorRecord) :=
  if i < l.length then some (l.set i v) else none

/-- Modelled from the spec: `stake_system.add` appends a delegation record,
failing with a capacity error if the registry is full (§4.2); the code of
`StakeSystem::add` is not in this snapshot. -/
def StakeSystem.add (ss : StakeSystem) (l : List StakeRecord)
    (key amount epoch : Nat) : Option (List StakeRecord) :=
  if l.length < ss.stake_list_capacity then
    some (l ++ [{ stake_account := key,
                  last_update_delegated_lamports := amount,
                  last_update_epoch := epoch,
                  is_emergency_unstaking := 0 }])
  else none

/-- The first clamp of the transfer amount (stake_reserve.rs lines 198-201):
`validator_stake_target.saturating_sub(active_balance).max(min_stake).min(stake_delta)`.
`Nat` subtraction is Rust's `saturating_sub`. -/
def clampedStakeTarget (vst active min_stake stake_delta : Nat) : Nat :=
  min (max (vst - active) min_stake) stake_delta

/-- The transferred amount (stake_reserve.rs lines 198-208): the clamped
target, replaced by the whole `stake_delta` when the remainder would be
smaller than `min_stake`. -/
def computeStakeTarget (vst active min_stake stake_delta : Nat) : Nat :=
  let t0 := clampedStakeTarget vst active min_stake stake_delta
  if stake_delta - t0 < min_stake then stake_delta else t0

/-- The part of `process` after the per-epoch guard (stake_reserve.rs lines
170-298).  `ss1` is the possibly-decremented `stake_system`, `validator1` the
in-memory validator record (its `last_stake_delta_epoch` possibly set to the
current epoch).  On success the returned `Option Nat` is the amount passed to
the transfer CPI; errors model the surrounding transaction aborting with no
durable mutation. -/
def afterEpochGuard (env : Env) (p : Pool) (validator_index : Nat)
    (stake_delta total_stake_target : Nat)
    (ss1 : StakeSystem) (validator1 : ValidatorRecord) :
    Except ProcessError (Pool × Option Nat) :=
  if env.slot < env.last_slot_in_epoch - ss1.slots_for_stake_delta then
    .error .stakeDeltaWindow
  else
    let vst := p.state.validator_system.validator_stake_target validator1 total_stake_target
    if vst ≤ validator1.active_balance then
      .ok ({ p with state := { p.state with stake_system := ss1 } }, none)
    else
      let stake_target := computeStakeTarget vst validator1.active_balance
        ss1.min_stake stake_delta
      let st1 : State := { p.state with stake_system := ss1 }
      match st1.on_transfer_from_reserve stake_target with
      | none => .error .reserveUnderflow
      | some st2 =>
        match st2.stake_system.add p.stake_list env.stake_account_key
            stake_target env.epoch with
        | none => .error .capacityExceeded
        | some stake_list2 =>
          match checkedAdd64 validator1.active_balance stake_target with
          | none => .error .calculationFailure
          | some ab2 =>
            let validator2 : ValidatorRecord :=
              { validator1 with active_balance := ab2,
                                last_stake_delta_epoch := env.epoch }
            let st3 : State :=
              { st2 with stake_system :=
                  { st2.stake_system with last_stake_delta_epoch := env.epoch } }
            match listSet p.validator_list validator_index validator2 with
            | none => .error .indexOutOfBounds
            | some vlist2 =>
              match checkedAdd64 st3.validator_system.total_active_balance
                  stake_target with
              | none => .error .calculationFailure
              | some tab2 =>
                .ok ({ state :=
                        { st3 with validator_system :=
                            { st3.validator_system with
                                total_active_balance := tab2 } },
                       validator_list := vlist2,
                       stake_list := stake_list2 }, some stake_target)

/-- Shallow embedding of `StakeReserve::process` (stake_reserve.rs lines
75-299).  Returns the committed pool state and the amount of the transfer CPI
(`none` for the soft no-ops); an error result models the whole transaction
aborting. -/
def process (env : Env) (p : Pool) (validator_index : Nat) :
    Except ProcessError (Pool × Option Nat) :=
  if env.validator_list_checksum_ok = false then .error .invalidChecksumValidatorList
  else if env.stake_list_checksum_ok = false then .error .invalidChecksumStakeList
  else if env.stake_history_key ≠ stakeHistoryID then .error .invalidArgument
  else if env.stake_account_uninitialized = false then .error .invalidAccountData
  else if env.stake_account_lamports ≠ env.rent_exempt_min then .error .invalidAccountData
  else
    let sd := p.state.stake_delta env.reserve_lamports
    if sd ≤ 0 then .ok (p, none)
    else
      let stake_delta := sd.toNat
      let total_stake_target :=
        saturatingAdd64 p.state.validator_system.total_active_balance stake_delta
      match p.validator_list[validator_index]? with
      | none => .error .indexOutOfBounds
      | some validator0 =>
        if env.validator_vote_key ≠ validator0.validator_account then
          .error .addressMismatch
        else if validator0.last_stake_delta_epoch = env.epoch then
          if p.state.stake_system.extra_stake_delta_runs = 0 then .ok (p, none)
          else
            afterEpochGuard env p validator_index stake_delta total_stake_target
              { p.state.stake_system with
                extra_stake_delta_runs :=
                  p.state.stake_system.extra_stake_delta_runs - 1 }
              validator0
        else
          afterEpochGuard env p validator_index stake_delta total_stake_target
            p.state.stake_system
            { validator0 with last_stake_delta_epoch := env.epoch }

/-! ## Inversion lemmas for the helper operations -/

lemma checkedAdd64_eq_some {a b c : Nat} :
    checkedAdd64 a b = some c ↔ a + b < U64_MOD ∧ c = a + b := by
  unfold checkedAdd64
  split <;> rename_i hc <;> simp [hc, eq_comm]

lemma on_transfer_eq_some {st st' : State} {a : Nat} :
    st.on_transfer_from_reserve a = some st' ↔
      a ≤ st.available_reserve_balance ∧
      st' = { st with available_reserve_balance := st.available_reserve_balance - a } := by
  unfold State.on_transfer_from_reserve
  split <;> rename_i hc <;> simp [hc, eq_comm]

lemma add_eq_some {ss : StakeSystem} {l l' : List StakeRecord} {key a e : Nat} :
    ss.add l key a e = some l' ↔
      l.length < ss.stake_list_capacity ∧
      l' = l ++ [{ stake_account := key, last_update_delegated_lamports := a,
                   last_update_epoch := e, is_emergency_unstaking := 0 }] := by
  unfold StakeSystem.add
  split <;> rename_i hc <;> simp [hc, eq_comm]

lemma listSet_eq_some {l l' : List ValidatorRecord} {i : Nat} {v : ValidatorRecord} :
    listSet l i v = some l' ↔ i < l.length ∧ l' = l.set i v := by
  unfold listSet
  split <;> rename_i hc <;> simp [hc, eq_comm]

/-! ## Bounds on the transfer-amount computation -/

lemma clampedStakeTarget_le (vst active m d : Nat) :
    clampedStakeTarget vst active m d ≤ d := by
  unfold clampedStakeTarget
  omega

lemma computeStakeTarget_le (vst active m d : Nat) :
    computeStakeTarget vst active m d ≤ d := by
  simp only [computeStakeTarget, clampedStakeTarget]
  split <;> omega

lemma computeStakeTarget_min (vst active m d : Nat)
    (h : computeStakeTarget vst active m d < m) :
    computeStakeTarget vst active m d = d := by
  simp only [computeStakeTarget, clampedStakeTarget] at h ⊢
  split at h <;> rename_i hC
  · rw [if_pos hC]
  · rw [if_neg hC]
    omega

lemma computeStakeTarget_rem (vst active m d : Nat) :
    ¬(1 ≤ d - computeStakeTarget vst active m d ∧
      d - computeStakeTarget vst active m d < m) := by
  simp only [computeStakeTarget, clampedStakeTarget]
  split <;> omega

lemma afterEpochGuard_ok_some {env : Env} {p : Pool} {i sd tst : Nat}
    {ss1 : StakeSystem} {v1 : ValidatorRecord} {p' : Pool} {t : Nat}
    (h : afterEpochGuard env p i sd tst ss1 v1 = .ok (p', some t)) :
    t = computeStakeTarget
          (p.state.validator_system.validator_stake_target v1 tst)
          v1.active_balance ss1.min_stake sd ∧
    v1.active_balance + t < U64_MOD ∧
    p.state.validator_system.total_active_balance + t < U64_MOD ∧
    i < p.validator_list.length ∧
    t ≤ p.state.available_reserve_balance ∧
    p' = { state :=
            { stake_system := { ss1 with last_stake_delta_epoch := env.epoch },
              validator_system :=
                { p.state.validator_system with
                    total_active_balance :=
                      p.state.validator_system.total_active_balance + t },
              available_reserve_balance :=
                p.state.available_reserve_balance - t,
              reserve_floor := p.state.reserve_floor },
           validator_list := p.validator_list.set i
             { v1 with active_balance := v1.active_balance + t,
                       last_stake_delta_epoch := env.epoch },
           stake_list := p.stake_list ++
             [{ stake_account := env.stake_account_key,
                last_update_delegated_lamports := t,
                last_update_epoch := env.epoch,
                is_emergency_unstaking := 0 }] } := by
  simp only [afterEpochGuard] at h
  split at h
  · exact absurd h (by simp)
  split at h
  · exact absurd h (by simp)
  split at h
  · exact absurd h (by simp)
  rename_i st2 hst2
  split at h
  · exact absurd h (by simp)
  rename_i sl2 hsl2
  split at h
  · exact absurd h (by simp)
  rename_i ab2 hab2
  split at h
  · exact absurd h (by simp)
  rename_i vl2 hvl2
  split at h
  · exact absurd h (by simp)
  rename_i tab2 htab2
  rw [on_transfer_eq_some] at hst2
  rw [add_eq_some] at hsl2
  rw [checkedAdd64_eq_some] at hab2
  rw [listSet_eq_some] at hvl2
  rw [checkedAdd64_eq_some] at htab2
  obtain ⟨hres, rfl⟩ := hst2
  obtain ⟨hcap, rfl⟩ := hsl2
  obtain ⟨hab, rfl⟩ := hab2
  obtain ⟨hlen, rfl⟩ := hvl2
  obtain ⟨htab, rfl⟩ := htab2
  simp only [Except.ok.injEq, Prod.mk.injEq, Option.some.injEq] at h
  obtain ⟨rfl, rfl⟩ := h
  refine ⟨rfl, hab, ?_, hlen, hres, rfl⟩
  exact htab

lemma afterEpochGuard_ok_none {env : Env} {p : Pool} {i sd tst : Nat}
    {ss1 : StakeSystem} {v1 : ValidatorRecord} {p' : Pool}
    (h : afterEpochGuard env p i sd tst ss1 v1 = .ok (p', none)) :
    p' = { p with state := { p.state with stake_system := ss1 } } ∧
    p.state.validator_system.validator_stake_target v1 tst ≤ v1.active_balance ∧
    env.last_slot_in_epoch - ss1.slots_for_stake_delta ≤ env.slot := by
  simp only [afterEpochGuard] at h
  split at h
  · exact absurd h (by simp)
  rename_i hw
  split at h
  · rename_i hu
    simp only [Except.ok.injEq, Prod.mk.injEq] at h
    exact ⟨h.1.symm, hu, by omega⟩
  split at h
  · exact absurd h (by simp)
  split at h
  · exact absurd h (by simp)
  split at h
  · exact absurd h (by simp)
  split at h
  · exact absurd h (by simp)
  split at h
  · exact absurd h (by simp)
  · exact absurd h (by simp)

lemma afterEpochGuard_window {env : Env} {p : Pool} {i sd tst : Nat}
    {ss1 : StakeSystem} {v1 : ValidatorRecord}
    (h : afterEpochGuard env p i sd tst ss1 v1 = .error .stakeDeltaWindow) :
    env.slot < env.last_slot_in_epoch - ss1.slots_for_stake_delta := by
  simp only [afterEpochGuard] at h
  split at h
  · rename_i hw; exact hw
  split at h
  · exact absurd h (by simp)
  split at h
  · exact absurd h (by simp)
  split at h
  · exact absurd h (by simp)
  split at h
  · exact absurd h (by simp)
  split at h
  · exact absurd h (by simp)
  split at h
  · exact absurd h (by simp)
  · exact absurd h (by simp)

lemma afterEpochGuard_success (env : Env) (p : Pool) (i sd tst : Nat)
    (ss1 : StakeSystem) (v1 : ValidatorRecord)
    (hw : env.last_slot_in_epoch - ss1.slots_for_stake_delta ≤ env.slot)
    (hu : v1.active_balance < p.state.validator_system.validator_stake_target v1 tst)
    (hres : sd ≤ p.state.available_reserve_balance)
    (hcap : p.stake_list.length < ss1.stake_list_capacity)
    (hab : v1.active_balance + sd < U64_MOD)
    (htab : p.state.validator_system.total_active_balance + sd < U64_MOD)
    (hi : i < p.validator_list.length) :
    ∃ p', afterEpochGuard env p i sd tst ss1 v1
        = .ok (p', some (computeStakeTarget
            (p.state.validator_system.validator_stake_target v1 tst)
            v1.active_balance ss1.min_stake sd)) ∧
      p'.state.stake_system.extra_stake_delta_runs = ss1.extra_stake_delta_runs := by
  have hle := computeStakeTarget_le
    (p.state.validator_system.validator_stake_target v1 tst)
    v1.active_balance ss1.min_stake sd
  simp only [afterEpochGuard]
  rw [if_neg (by omega), if_neg (by omega)]
  rw [on_transfer_eq_some.mpr ⟨by simp; omega, rfl⟩]
  dsimp only
  rw [add_eq_some.mpr ⟨by simpa using hcap, rfl⟩]
  dsimp only
  rw [checkedAdd64_eq_some.mpr ⟨by omega, rfl⟩]
  dsimp only
  rw [listSet_eq_some.mpr ⟨hi, rfl⟩]
  dsimp only
  rw [checkedAdd64_eq_some.mpr ⟨by simpa using (by omega : p.state.validator_system.total_active_balance + computeStakeTarget (p.state.validator_system.validator_stake_target v1 tst) v1.active_balance ss1.min_stake sd < U64_MOD), rfl⟩]
  exact ⟨_, rfl, rfl⟩

lemma checkedAdd64_eq_none {a b : Nat} :
    checkedAdd64 a b = none ↔ U64_MOD ≤ a + b := by
  unfold checkedAdd64
  split <;> rename_i hc <;> simp [hc]
  all_goals omega

lemma afterEpochGuard_overflow {env : Env} {p : Pool} {i sd tst : Nat}
    {ss1 : StakeSystem} {v1 : ValidatorRecord}
    (hw : env.last_slot_in_epoch - ss1.slots_for_stake_delta ≤ env.slot)
    (hu : v1.active_balance < p.state.validator_system.validator_stake_target v1 tst)
    (hres : sd ≤ p.state.available_reserve_balance)
    (hcap : p.stake_list.length < ss1.stake_list_capacity)
    (hi : i < p.validator_list.length)
    (hov : U64_MOD ≤ v1.active_balance + computeStakeTarget
            (p.state.validator_system.validator_stake_target v1 tst)
            v1.active_balance ss1.min_stake sd ∨
           U64_MOD ≤ p.state.validator_system.total_active_balance + computeStakeTarget
            (p.state.validator_system.validator_stake_target v1 tst)
            v1.active_balance ss1.min_stake sd) :
    afterEpochGuard env p i sd tst ss1 v1 = .error .calculationFailure := by
  have hle := computeStakeTarget_le
    (p.state.validator_system.validator_stake_target v1 tst)
    v1.active_balance ss1.min_stake sd
  simp only [afterEpochGuard]
  rw [if_neg (by omega), if_neg (by omega)]
  rw [on_transfer_eq_some.mpr ⟨by simp; omega, rfl⟩]
  dsimp only
  rw [add_eq_some.mpr ⟨by simpa using hcap, rfl⟩]
  dsimp only
  by_cases hab : v1.active_balance + computeStakeTarget
      (p.state.validator_system.validator_stake_target v1 tst)
      v1.active_balance ss1.min_stake sd < U64_MOD
  · rw [checkedAdd64_eq_some.mpr ⟨hab, rfl⟩]
    dsimp only
    rw [listSet_eq_some.mpr ⟨hi, rfl⟩]
    dsimp only
    rw [checkedAdd64_eq_none.mpr (by omega)]
  · rw [checkedAdd64_eq_none.mpr (by omega)]

lemma process_ok_some {env : Env} {p : Pool} {i : Nat} {p' : Pool} {t : Nat}
    (h : process env p i = .ok (p', some t)) :
    ∃ v0, p.validator_list[i]? = some v0 ∧
      0 < p.state.stake_delta env.reserve_lamports ∧
      t ≤ (p.state.stake_delta env.reserve_lamports).toNat ∧
      (t < p.state.stake_system.min_stake →
        t = (p.state.stake_delta env.reserve_lamports).toNat) ∧
      ¬(1 ≤ (p.state.stake_delta env.reserve_lamports).toNat - t ∧
        (p.state.stake_delta env.reserve_lamports).toNat - t
          < p.state.stake_system.min_stake) ∧
      v0.active_balance + t < U64_MOD ∧
      p.state.validator_system.total_active_balance + t < U64_MOD ∧
      p'.state.validator_system.total_active_balance
        = p.state.validator_system.total_active_balance + t ∧
      i < p.validator_list.length ∧
      p'.validator_list = p.validator_list.set i
        { v0 with active_balance := v0.active_balance + t,
                  last_stake_delta_epoch := env.epoch } := by
  simp only [process] at h
  split at h
  · exact absurd h (by simp)
  split at h
  · exact absurd h (by simp)
  split at h
  · exact absurd h (by simp)
  split at h
  · exact absurd h (by simp)
  split at h
  · exact absurd h (by simp)
  split at h
  · exact absurd h (by simp)
  rename_i hsd
  split at h
  · exact absurd h (by simp)
  rename_i v0 hv0
  split at h
  · exact absurd h (by simp)
  split at h
  · -- same epoch
    split at h
    · exact absurd h (by simp)
    rename_i hextra
    obtain ⟨ht, hab, htab, hi, hres, hp'⟩ := afterEpochGuard_ok_some h
    refine ⟨v0, hv0, by omega, ?_, ?_, ?_, by simpa using hab, by simpa using htab,
      by rw [hp'], hi, by rw [hp']⟩
    · simpa [ht] using computeStakeTarget_le
        (p.state.validator_system.validator_stake_target v0
          (saturatingAdd64 p.state.validator_system.total_active_balance
            (p.state.stake_delta env.reserve_lamports).toNat))
        v0.active_balance p.state.stake_system.min_stake
        (p.state.stake_delta env.reserve_lamports).toNat
    · intro hlt
      have := computeStakeTarget_min
        (p.state.validator_system.validator_stake_target v0
          (saturatingAdd64 p.state.validator_system.total_active_balance
            (p.state.stake_delta env.reserve_lamports).toNat))
        v0.active_balance p.state.stake_system.min_stake
        (p.state.stake_delta env.reserve_lamports).toNat
      simp only [ht] at *
      exact this (by simpa using hlt)
    · have := computeStakeTarget_rem
        (p.state.validator_system.validator_stake_target v0
          (saturatingAdd64 p.state.validator_system.total_active_balance
            (p.state.stake_delta env.reserve_lamports).toNat))
        v0.active_balance p.state.stake_system.min_stake
        (p.state.stake_delta env.reserve_lamports).toNat
      simpa [ht] using this
  · -- first action this epoch
    obtain ⟨ht, hab, htab, hi, hres, hp'⟩ := afterEpochGuard_ok_some h
    refine ⟨v0, hv0, by omega, ?_, ?_, ?_, by simpa using hab, by simpa using htab,
      by rw [hp'], hi, by rw [hp']⟩
    · simpa [ht] using computeStakeTarget_le
        (p.state.validator_system.validator_stake_target
          { v0 with last_stake_delta_epoch := env.epoch }
          (saturatingAdd64 p.state.validator_system.total_active_balance
            (p.state.stake_delta env.reserve_lamports).toNat))
        v0.active_balance p.state.stake_system.min_stake
        (p.state.stake_delta env.reserve_lamports).toNat
    · intro hlt
      have := computeStakeTarget_min
        (p.state.validator_system.validator_stake_target
          { v0 with last_stake_delta_epoch := env.epoch }
          (saturatingAdd64 p.state.validator_system.total_active_balance
            (p.state.stake_delta env.reserve_lamports).toNat))
        v0.active_balance p.state.stake_system.min_stake
        (p.state.stake_delta env.reserve_lamports).toNat
      simp only [ht] at *
      exact this (by simpa using hlt)
    · have := computeStakeTarget_rem
        (p.state.validator_system.validator_stake_target
          { v0 with last_stake_delta_epoch := env.epoch }
          (saturatingAdd64 p.state.validator_system.total_active_balance
            (p.state.stake_delta env.reserve_lamports).toNat))
        v0.active_balance p.state.stake_system.min_stake
        (p.state.stake_delta env.reserve_lamports).toNat
      simpa [ht] using this

lemma process_ok_none {env : Env} {p : Pool} {i : Nat} {p' : Pool}
    (h : process env p i = .ok (p', none)) :
    p'.validator_list = p.validator_list ∧
    p'.stake_list = p.stake_list ∧
    (p' = p ∨
      (0 < p.state.stake_system.extra_stake_delta_runs ∧
       p' = { p with state := { p.state with stake_system :=
         { p.state.stake_system with extra_stake_delta_runs :=
             p.state.stake_system.extra_stake_delta_runs - 1 } } })) := by
  simp only [process] at h
  split at h
  · exact absurd h (by simp)
  split at h
  · exact absurd h (by simp)
  split at h
  · exact absurd h (by simp)
  split at h
  · exact absurd h (by simp)
  split at h
  · exact absurd h (by simp)
  split at h
  · -- stake_delta ≤ 0 soft no-op
    simp only [Except.ok.injEq, Prod.mk.injEq] at h
    exact ⟨by rw [← h.1], by rw [← h.1], Or.inl h.1.symm⟩
  split at h
  · exact absurd h (by simp)
  rename_i v0 hv0
  split at h
  · exact absurd h (by simp)
  split at h
  · -- same epoch
    split at h
    · -- no extra runs: soft no-op
      simp only [Except.ok.injEq, Prod.mk.injEq] at h
      exact ⟨by rw [← h.1], by rw [← h.1], Or.inl h.1.symm⟩
    · rename_i hextra
      obtain ⟨hp', -, -⟩ := afterEpochGuard_ok_none h
      refine ⟨by rw [hp'], by rw [hp'], Or.inr ⟨by omega, hp'⟩⟩
  · -- first action this epoch: at-target soft no-op leaves the pool unchanged
    obtain ⟨hp', -, -⟩ := afterEpochGuard_ok_none h
    exact ⟨by rw [hp'], by rw [hp'], Or.inl hp'⟩

lemma process_window_error {env : Env} {p : Pool} {i : Nat}
    (h : process env p i = .error .stakeDeltaWindow) :
    env.slot < env.last_slot_in_epoch - p.state.stake_system.slots_for_stake_delta := by
  simp only [process] at h
  split at h
  · exact absurd h (by simp)
  split at h
  · exact absurd h (by simp)
  split at h
  · exact absurd h (by simp)
  split at h
  · exact absurd h (by simp)
  split at h
  · exact absurd h (by simp)
  split at h
  · exact absurd h (by simp)
  split at h
  · exact absurd h (by simp)
  rename_i v0 hv0
  split at h
  · exact absurd h (by simp)
  split at h
  · split at h
    · exact absurd h (by simp)
    · have hw := afterEpochGuard_window h
      simpa using hw
  · have hw := afterEpochGuard_window h
    simpa using hw

/-! ## Concrete inputs used by witnesses and counterexamples -/

/-- A concrete environment under which a full staking run succeeds. -/
def wEnv : Env :=
  { epoch := 7, slot := 60, last_slot_in_epoch := 50, reserve_lamports := 100,
    rent_exempt_min := 3, stake_account_key := 9, stake_account_lamports := 3,
    stake_account_uninitialized := true, stake_history_key := 0,
    validator_vote_key := 5, validator_list_checksum_ok := true,
    stake_list_checksum_ok := true }

/-- A concrete pool under which a full staking run succeeds (transfer 100). -/
def wPool : Pool :=
  { state :=
      { stake_system :=
          { min_stake := 10, extra_stake_delta_runs := 0,
            slots_for_stake_delta := 50, last_stake_delta_epoch := 0,
            stake_list_capacity := 10 },
        validator_system :=
          { total_active_balance := 0, total_validator_score := 1 },
        available_reserve_balance := 100, reserve_floor := 0 },
    validator_list :=
      [{ validator_account := 5, active_balance := 0,
         last_stake_delta_epoch := 0, score := 1 }],
    stake_list := [] }

/-- The pool after the successful run `process wEnv wPool 0`. -/
def wPoolRes : Pool :=
  { state :=
      { stake_system :=
          { min_stake := 10, extra_stake_delta_runs := 0,
            slots_for_stake_delta := 50, last_stake_delta_epoch := 7,
            stake_list_capacity := 10 },
        validator_system :=
          { total_active_balance := 100, total_validator_score := 1 },
        available_reserve_balance := 0, reserve_floor := 0 },
    validator_list :=
      [{ validator_account := 5, active_balance := 100,
         last_stake_delta_epoch := 7, score := 1 }],
    stake_list := [{ stake_account := 9, last_update_delegated_lamports := 100,
                     last_update_epoch := 7, is_emergency_unstaking := 0 }] }

/-- Pool for the C2 counterexample: the targeted validator already acted this
epoch, one extra stake-delta run is budgeted, and the validator is already at
its target allocation. -/
def poolC2 : Pool :=
  { state :=
      { stake_system :=
          { min_stake := 10, extra_stake_delta_runs := 1,
            slots_for_stake_delta := 50, last_stake_delta_epoch := 0,
            stake_list_capacity := 10 },
        validator_system :=
          { total_active_balance := 2000, total_validator_score := 2 },
        available_reserve_balance := 100, reserve_floor := 0 },
    validator_list :=
      [{ validator_account := 5, active_balance := 2000,
         last_stake_delta_epoch := 7, score := 1 }],
    stake_list := [] }

/-- The pool after `process wEnv poolC2 0`: the at-target soft no-op returned
success, yet `extra_stake_delta_runs` dropped from 1 to 0. -/
def poolC2res : Pool :=
  { poolC2 with state := { poolC2.state with stake_system :=
      { poolC2.state.stake_system with extra_stake_delta_runs := 0 } } }

/-- Environment with `stake_delta ≤ 0` (empty reserve, positive floor pool). -/
def envC4 : Env := { wEnv with reserve_lamports := 0 }

/-- Pool with positive reserve floor so that `stake_delta` is negative under
`envC4`. -/
def poolC4 : Pool :=
  { wPool with state := { wPool.state with reserve_floor := 5 } }

/-- Pool whose validator already acted this epoch and with no extra runs. -/
def poolC5a : Pool :=
  { wPool with validator_list :=
      [{ validator_account := 5, active_balance := 0,
         last_stake_delta_epoch := 7, score := 1 }] }

/-- Pool whose validator already acted this epoch, with one extra run
budgeted and room to stake. -/
def poolC5b : Pool :=
  { poolC5a with state := { poolC5a.state with stake_system :=
      { poolC5a.state.stake_system with extra_stake_delta_runs := 1 } } }

/-- Environment whose stake account is not uninitialized. -/
def envNotUninit : Env := { wEnv with stake_account_uninitialized := false }

/-- Environment whose stake account balance differs from the rent-exempt
minimum. -/
def envWrongBalance : Env := { wEnv with stake_account_lamports := 7 }

/-- Environment whose stake-history account is not the well-known sysvar. -/
def envBadHistory : Env := { wEnv with stake_history_key := 1 }

/-- Environment far from the end of the epoch (outside the stake-delta
window). -/
def envWin : Env := { wEnv with slot := 0, last_slot_in_epoch := 1000 }

/-- Pool with a narrow stake-delta window, for the window-guard failure. -/
def poolWin : Pool :=
  { wPool with state := { wPool.state with stake_system :=
      { wPool.state.stake_system with slots_for_stake_delta := 10 } } }

/-- Environment for the overflow failure (reserve of 10 lamports to deploy). -/
def envOvf : Env := { wEnv with reserve_lamports := 10 }

/-- Pool whose validator balance is close enough to `u64::MAX` that adding the
transferred amount overflows the checked addition. -/
def poolOvf : Pool :=
  { state :=
      { stake_system :=
          { min_stake := 20, extra_stake_delta_runs := 0,
            slots_for_stake_delta := 50, last_stake_delta_epoch := 0,
            stake_list_capacity := 10 },
        validator_system :=
          { total_active_balance := U64_MOD - 3, total_validator_score := 1 },
        available_reserve_balance := 100, reserve_floor := 0 },
    validator_list :=
      [{ validator_account := 5, active_balance := U64_MOD - 3,
         last_stake_delta_epoch := 0, score := 1 }],
    stake_list := [] }

/-- Pool like `poolOvf` but whose validator already acted this epoch, with one
extra stake-delta run budgeted, so the overflowing addition is reached through
the extra-run branch of the epoch guard. -/
def poolOvf2 : Pool :=
  { poolOvf with
    state := { poolOvf.state with stake_system :=
      { poolOvf.state.stake_system with extra_stake_delta_runs := 1 } },
    validator_list :=
      [{ validator_account := 5, active_balance := U64_MOD - 3,
         last_stake_delta_epoch := 7, score := 1 }] }

/-! ## Claim theorems -/

/-- C1: whenever `process` returns success after performing a transfer of
amount `t`, the pool's `total_active_balance` afterwards equals its value
before plus `t`, and the targeted validator's `active_balance` afterwards
equals its value before plus `t` (each amount counted exactly once). -/
theorem C1_transfer_accounting (env : Env) (p : Pool) (i : Nat) (p' : Pool)
    (t : Nat) (h : process env p i = .ok (p', some t)) :
    p'.state.validator_system.total_active_balance
      = p.state.validator_system.total_active_balance + t ∧
    ∃ v0 v1, p.validator_list[i]? = some v0 ∧ p'.validator_list[i]? = some v1 ∧
      v1.active_balance = v0.active_balance + t := by
  obtain ⟨v0, hv0, -, -, -, -, -, -, htot, hi, hl⟩ := process_ok_some h
  refine ⟨htot, v0,
    { v0 with active_balance := v0.active_balance + t,
              last_stake_delta_epoch := env.epoch }, hv0, ?_, rfl⟩
  rw [hl]
  exact List.getElem?_set_eq_of_lt _ hi

/-- C1 witness: the successful run `process wEnv wPool 0` transfers 100 and
books it once in each balance. -/
theorem C1_witness :
    wPoolRes.state.validator_system.total_active_balance
      = wPool.state.validator_system.total_active_balance + 100 ∧
    ∃ v0 v1, wPool.validator_list[0]? = some v0 ∧
      wPoolRes.validator_list[0]? = some v1 ∧
      v1.active_balance = v0.active_balance + 100 :=
  C1_transfer_accounting wEnv wPool 0 wPoolRes 100 (by rfl)

/-- C2 counterexample: `process wEnv poolC2 0` hits the already-at-target soft
no-op (it returns success with no transfer), yet the pool aggregate state is
mutated: `extra_stake_delta_runs` drops from 1 to 0, because the epoch guard
consumed an extra run before the at-target check.  This refutes the claim
that every soft no-op return leaves every field unchanged. -/
theorem C2_counterexample :
    process wEnv poolC2 0 = .ok (poolC2res, none) ∧
    poolC2res ≠ poolC2 ∧
    poolC2.state.stake_system.extra_stake_delta_runs = 1 ∧
    poolC2res.state.stake_system.extra_stake_delta_runs = 0 :=
  ⟨by rfl, by decide, rfl, rfl⟩

/-- C2 (amended): every soft no-op return of `process` (success with no
transfer) leaves both registries unchanged, and leaves the aggregate state
unchanged as well, except that when the soft no-op is reached after consuming
an extra stake-delta run (the targeted validator had already acted this epoch
and `extra_stake_delta_runs` was positive) the only mutation is that
`extra_stake_delta_runs` is decremented by one. -/
theorem C2_soft_noop_frame (env : Env) (p : Pool) (i : Nat) (p' : Pool)
    (h : process env p i = .ok (p', none)) :
    p'.validator_list = p.validator_list ∧
    p'.stake_list = p.stake_list ∧
    (p' = p ∨
      (0 < p.state.stake_system.extra_stake_delta_runs ∧
       p' = { p with state := { p.state with stake_system :=
         { p.state.stake_system with extra_stake_delta_runs :=
             p.state.stake_system.extra_stake_delta_runs - 1 } } })) :=
  process_ok_none h

/-- C2 witness: the amended frame property instantiated on the concrete
soft no-op run `process wEnv poolC2 0`. -/
theorem C2_witness :
    poolC2res.validator_list = poolC2.validator_list ∧
    poolC2res.stake_list = poolC2.stake_list ∧
    (poolC2res = poolC2 ∨
      (0 < poolC2.state.stake_system.extra_stake_delta_runs ∧
       poolC2res = { poolC2 with state := { poolC2.state with stake_system :=
         { poolC2.state.stake_system with extra_stake_delta_runs :=
             poolC2.state.stake_system.extra_stake_delta_runs - 1 } } })) :=
  C2_soft_noop_frame wEnv poolC2 0 poolC2res (by rfl)

/-- C3: the transfer amount (stake_reserve.rs lines 198-208) never exceeds
`stake_delta`, is never less than `min_stake` unless it equals the entire
remaining `stake_delta`, and never leaves a remainder in `[1, min_stake)`;
in particular this holds for the amount of every successful transfer of
`process`. -/
theorem C3_transfer_amount_bounds :
    (∀ vst active m d : Nat, 0 < d →
      computeStakeTarget vst active m d ≤ d ∧
      (computeStakeTarget vst active m d < m →
        computeStakeTarget vst active m d = d) ∧
      ¬(1 ≤ d - computeStakeTarget vst active m d ∧
        d - computeStakeTarget vst active m d < m)) ∧
    (∀ (env : Env) (p : Pool) (i : Nat) (p' : Pool) (t : Nat),
      process env p i = .ok (p', some t) →
      t ≤ (p.state.stake_delta env.reserve_lamports).toNat ∧
      (t < p.state.stake_system.min_stake →
        t = (p.state.stake_delta env.reserve_lamports).toNat) ∧
      ¬(1 ≤ (p.state.stake_delta env.reserve_lamports).toNat - t ∧
        (p.state.stake_delta env.reserve_lamports).toNat - t
          < p.state.stake_system.min_stake)) := by
  constructor
  · intro vst active m d hd
    exact ⟨computeStakeTarget_le vst active m d,
      computeStakeTarget_min vst active m d,
      computeStakeTarget_rem vst active m d⟩
  · intro env p i p' t h
    obtain ⟨v0, -, -, hle, hmin, hrem, -⟩ := process_ok_some h
    exact ⟨hle, hmin, hrem⟩

/-- C3 witness: the spec's two worked examples (`min_stake = 1000000`,
`stake_delta = 5000000`, shortfall 2500000 gives 2500000; shortfall 4800000
gives the entire 5000000), and the bounds instantiated on the successful run
`process wEnv wPool 0`. -/
theorem C3_witness :
    (computeStakeTarget 2500000 0 1000000 5000000 ≤ 5000000 ∧
      (computeStakeTarget 2500000 0 1000000 5000000 < 1000000 →
        computeStakeTarget 2500000 0 1000000 5000000 = 5000000) ∧
      ¬(1 ≤ 5000000 - computeStakeTarget 2500000 0 1000000 5000000 ∧
        5000000 - computeStakeTarget 2500000 0 1000000 5000000 < 1000000)) ∧
    computeStakeTarget 2500000 0 1000000 5000000 = 2500000 ∧
    computeStakeTarget 4800000 0 1000000 5000000 = 5000000 ∧
    (100 ≤ (wPool.state.stake_delta wEnv.reserve_lamports).toNat ∧
      (100 < wPool.state.stake_system.min_stake →
        100 = (wPool.state.stake_delta wEnv.reserve_lamports).toNat) ∧
      ¬(1 ≤ (wPool.state.stake_delta wEnv.reserve_lamports).toNat - 100 ∧
        (wPool.state.stake_delta wEnv.reserve_lamports).toNat - 100
          < wPool.state.stake_system.min_stake)) :=
  ⟨C3_transfer_amount_bounds.1 2500000 0 1000000 5000000 (by decide),
   by decide, by decide,
   C3_transfer_amount_bounds.2 wEnv wPool 0 wPoolRes 100 (by rfl)⟩

/-- C4: when the computed `stake_delta` is not positive and the entry
preconditions hold (checksummed registries accepted, well-known stake-history
identity, uninitialized stake account funded with exactly the rent-exempt
minimum), `process` returns success and the pool — aggregate state and both
registries — is returned unchanged. -/
theorem C4_nothing_to_deploy_frame (env : Env) (p : Pool) (i : Nat)
    (h1 : env.validator_list_checksum_ok = true)
    (h2 : env.stake_list_checksum_ok = true)
    (h3 : env.stake_history_key = stakeHistoryID)
    (h4 : env.stake_account_uninitialized = true)
    (h5 : env.stake_account_lamports = env.rent_exempt_min)
    (h6 : p.state.stake_delta env.reserve_lamports ≤ 0) :
    process env p i = .ok (p, none) := by
  simp [process, h1, h2, h3, h4, h5, h6]

/-- C4 witness: with an empty reserve and a positive reserve floor,
`process envC4 poolC4 0` is the unchanged-state soft no-op. -/
theorem C4_witness : process envC4 poolC4 0 = .ok (poolC4, none) :=
  C4_nothing_to_deploy_frame envC4 poolC4 0 rfl rfl rfl rfl rfl (by decide)

/-- C9: in the transfer-amount computation, the first clamp is at most
`stake_delta` (the `.min(stake_delta)` is applied last), so the remainder
subtraction `stake_delta - stake_target` in the following test (line 204)
never underflows the unsigned subtraction, for every input. -/
theorem C9_remainder_no_underflow (vst active m d : Nat) :
    clampedStakeTarget vst active m d ≤ d ∧
    computeStakeTarget vst active m d
      = (if d - clampedStakeTarget vst active m d < m then d
         else clampedStakeTarget vst active m d) :=
  ⟨clampedStakeTarget_le vst active m d, rfl⟩

/-- C10: the window threshold uses saturating subtraction, so whenever
`slots_for_stake_delta` is at least the last slot of the epoch the threshold
is 0 and the window guard admits every current slot: `process` can never
return the window error. -/
theorem C10_saturating_window (env : Env) (p : Pool) (i : Nat)
    (h : env.last_slot_in_epoch ≤ p.state.stake_system.slots_for_stake_delta) :
    env.last_slot_in_epoch - p.state.stake_system.slots_for_stake_delta = 0 ∧
    process env p i ≠ .error .stakeDeltaWindow := by
  refine ⟨by omega, fun hc => ?_⟩
  have hlt := process_window_error hc
  omega

/-- C10 witness: with `slots_for_stake_delta = 50` covering the whole epoch
(last slot 50), the guard admits slot 60. -/
theorem C10_witness :
    wEnv.last_slot_in_epoch - wPool.state.stake_system.slots_for_stake_delta = 0 ∧
    process wEnv wPool 0 ≠ .error .stakeDeltaWindow :=
  C10_saturating_window wEnv wPool 0 (by decide)

/-- C5: for a validator whose `last_stake_delta_epoch` equals the current
epoch, a call of `process` with `extra_stake_delta_runs = 0` returns success
with no mutation; a call with `extra_stake_delta_runs = 1` (when the window,
target, reserve, capacity and arithmetic conditions let the action proceed)
performs one more rebalance action for that validator and leaves
`extra_stake_delta_runs = 0`. -/
theorem C5_double_action_guard :
    (∀ (env : Env) (p : Pool) (i : Nat) (v0 : ValidatorRecord),
      env.validator_list_checksum_ok = true →
      env.stake_list_checksum_ok = true →
      env.stake_history_key = stakeHistoryID →
      env.stake_account_uninitialized = true →
      env.stake_account_lamports = env.rent_exempt_min →
      0 < p.state.stake_delta env.reserve_lamports →
      p.validator_list[i]? = some v0 →
      env.validator_vote_key = v0.validator_account →
      v0.last_stake_delta_epoch = env.epoch →
      p.state.stake_system.extra_stake_delta_runs = 0 →
      process env p i = .ok (p, none)) ∧
    (∀ (env : Env) (p : Pool) (i : Nat) (v0 : ValidatorRecord),
      env.validator_list_checksum_ok = true →
      env.stake_list_checksum_ok = true →
      env.stake_history_key = stakeHistoryID →
      env.stake_account_uninitialized = true →
      env.stake_account_lamports = env.rent_exempt_min →
      0 < p.state.stake_delta env.reserve_lamports →
      p.validator_list[i]? = some v0 →
      env.validator_vote_key = v0.validator_account →
      v0.last_stake_delta_epoch = env.epoch →
      p.state.stake_system.extra_stake_delta_runs = 1 →
      env.last_slot_in_epoch - p.state.stake_system.slots_for_stake_delta
        ≤ env.slot →
      v0.active_balance < p.state.validator_system.validator_stake_target v0
        (saturatingAdd64 p.state.validator_system.total_active_balance
          (p.state.stake_delta env.reserve_lamports).toNat) →
      (p.state.stake_delta env.reserve_lamports).toNat
        ≤ p.state.available_reserve_balance →
      p.stake_list.length < p.state.stake_system.stake_list_capacity →
      v0.active_balance + (p.state.stake_delta env.reserve_lamports).toNat
        < U64_MOD →
      p.state.validator_system.total_active_balance
        + (p.state.stake_delta env.reserve_lamports).toNat < U64_MOD →
      ∃ p' t, process env p i = .ok (p', some t) ∧
        p'.state.stake_system.extra_stake_delta_runs = 0) := by
  constructor
  · intro env p i v0 h1 h2 h3 h4 h5 hsd hv0 hvote hep hex
    have hnsd : ¬ p.state.stake_delta env.reserve_lamports ≤ 0 := by omega
    simp [process, h1, h2, h3, h4, h5, hnsd, hv0, hvote, hep, hex]
  · intro env p i v0 h1 h2 h3 h4 h5 hsd hv0 hvote hep hex hw hu hres hcap hab htab
    have hnsd : ¬ p.state.stake_delta env.reserve_lamports ≤ 0 := by omega
    have hex1 : ¬ p.state.stake_system.extra_stake_delta_runs = 0 := by omega
    have hi : i < p.validator_list.length := by
      by_contra hge
      rw [List.getElem?_eq_none (by omega)] at hv0
      exact absurd hv0 (by simp)
    have hproc : process env p i = afterEpochGuard env p i
        (p.state.stake_delta env.reserve_lamports).toNat
        (saturatingAdd64 p.state.validator_system.total_active_balance
          (p.state.stake_delta env.reserve_lamports).toNat)
        { p.state.stake_system with extra_stake_delta_runs :=
            p.state.stake_system.extra_stake_delta_runs - 1 }
        v0 := by
      simp [process, h1, h2, h3, h4, h5, hnsd, hv0, hvote, hep, hex1]
    obtain ⟨p', hok, hex'⟩ := afterEpochGuard_success env p i
      (p.state.stake_delta env.reserve_lamports).toNat
      (saturatingAdd64 p.state.validator_system.total_active_balance
        (p.state.stake_delta env.reserve_lamports).toNat)
      { p.state.stake_system with extra_stake_delta_runs :=
          p.state.stake_system.extra_stake_delta_runs - 1 }
      v0 (by simpa using hw) (by simpa using hu) hres
      (by simpa using hcap) hab htab hi
    refine ⟨p', _, hproc.trans hok, ?_⟩
    have hval : p'.state.stake_system.extra_stake_delta_runs
        = p.state.stake_system.extra_stake_delta_runs - 1 := by
      simpa using hex'
    omega

/-- C5 witness: under `wEnv`, the pool `poolC5a` (validator acted this epoch,
no extra runs) soft no-ops, and `poolC5b` (one extra run) performs one more
action and ends with `extra_stake_delta_runs = 0`. -/
theorem C5_witness :
    process wEnv poolC5a 0 = .ok (poolC5a, none) ∧
    ∃ p' t, process wEnv poolC5b 0 = .ok (p', some t) ∧
      p'.state.stake_system.extra_stake_delta_runs = 0 :=
  ⟨C5_double_action_guard.1 wEnv poolC5a 0 ⟨5, 0, 7, 1⟩
      rfl rfl rfl rfl rfl (by decide) rfl rfl rfl rfl,
   C5_double_action_guard.2 wEnv poolC5b 0 ⟨5, 0, 7, 1⟩
      rfl rfl rfl rfl rfl (by decide) rfl rfl rfl rfl (by decide) (by decide)
      (by decide) (by decide) (by decide) (by decide)⟩

/-- C6: when the earlier guards pass with a positive `stake_delta` and the
current slot is strictly below `last_slot_of_epoch − slots_for_stake_delta`,
`process` returns the window-specific error (a hard failure, so no mutation is
durably applied); at or above the threshold the window guard can never fail. -/
theorem C6_window_guard :
    (∀ (env : Env) (p : Pool) (i : Nat) (v0 : ValidatorRecord),
      env.validator_list_checksum_ok = true →
      env.stake_list_checksum_ok = true →
      env.stake_history_key = stakeHistoryID →
      env.stake_account_uninitialized = true →
      env.stake_account_lamports = env.rent_exempt_min →
      0 < p.state.stake_delta env.reserve_lamports →
      p.validator_list[i]? = some v0 →
      env.validator_vote_key = v0.validator_account →
      (v0.last_stake_delta_epoch ≠ env.epoch ∨
        0 < p.state.stake_system.extra_stake_delta_runs) →
      env.slot < env.last_slot_in_epoch
        - p.state.stake_system.slots_for_stake_delta →
      process env p i = .error .stakeDeltaWindow) ∧
    (∀ (env : Env) (p : Pool) (i : Nat),
      env.last_slot_in_epoch - p.state.stake_system.slots_for_stake_delta
        ≤ env.slot →
      process env p i ≠ .error .stakeDeltaWindow) := by
  constructor
  · intro env p i v0 h1 h2 h3 h4 h5 hsd hv0 hvote hguard hwin
    have hnsd : ¬ p.state.stake_delta env.reserve_lamports ≤ 0 := by omega
    by_cases hep : v0.last_stake_delta_epoch = env.epoch
    · have hex : ¬ p.state.stake_system.extra_stake_delta_runs = 0 := by
        rcases hguard with hg | hg
        · exact absurd hep hg
        · omega
      simp [process, h1, h2, h3, h4, h5, hnsd, hv0, hvote, hep, hex]
      simp only [afterEpochGuard]
      rw [if_pos (by simpa using hwin)]
    · simp [process, h1, h2, h3, h4, h5, hnsd, hv0, hvote, hep]
      simp only [afterEpochGuard]
      rw [if_pos (by simpa using hwin)]
  · intro env p i hw hc
    exact absurd (process_window_error hc) (by omega)

/-- C6 witness: at slot 0 with threshold 990 the window guard fails with the
window error; under `wEnv` (threshold 0) it can never fail. -/
theorem C6_witness :
    process envWin poolWin 0 = .error .stakeDeltaWindow ∧
    process wEnv wPool 0 ≠ .error .stakeDeltaWindow :=
  ⟨C6_window_guard.1 envWin poolWin 0 ⟨5, 0, 0, 1⟩ rfl rfl rfl rfl rfl
      (by decide) rfl rfl (Or.inl (by decide)) (by decide),
   C6_window_guard.2 wEnv wPool 0 (by decide)⟩

/-- C7: each checked addition of the transferred amount to the balance
bookkeeping fails with the calculation-failure error when it would leave the
`u64` range — on either branch of the epoch guard (first action this epoch,
or a same-epoch call consuming an extra stake-delta run) — and on success the
stored balances are the exact (non-wrapped) sums and stay below `2^64`; the
saturating `total_stake_target` is the stated exception. -/
theorem C7_overflow_guard :
    (∀ (env : Env) (p : Pool) (i : Nat) (p' : Pool) (t : Nat),
      process env p i = .ok (p', some t) →
      p'.state.validator_system.total_active_balance
        = p.state.validator_system.total_active_balance + t ∧
      p'.state.validator_system.total_active_balance < U64_MOD ∧
      ∃ v0 v1, p.validator_list[i]? = some v0 ∧
        p'.validator_list[i]? = some v1 ∧
        v1.active_balance = v0.active_balance + t ∧
        v1.active_balance < U64_MOD) ∧
    (∀ (env : Env) (p : Pool) (i : Nat) (v0 : ValidatorRecord),
      env.validator_list_checksum_ok = true →
      env.stake_list_checksum_ok = true →
      env.stake_history_key = stakeHistoryID →
      env.stake_account_uninitialized = true →
      env.stake_account_lamports = env.rent_exempt_min →
      0 < p.state.stake_delta env.reserve_lamports →
      p.validator_list[i]? = some v0 →
      env.validator_vote_key = v0.validator_account →
      (v0.last_stake_delta_epoch ≠ env.epoch ∨
        0 < p.state.stake_system.extra_stake_delta_runs) →
      env.last_slot_in_epoch - p.state.stake_system.slots_for_stake_delta
        ≤ env.slot →
      v0.active_balance < p.state.validator_system.validator_stake_target v0
        (saturatingAdd64 p.state.validator_system.total_active_balance
          (p.state.stake_delta env.reserve_lamports).toNat) →
      (p.state.stake_delta env.reserve_lamports).toNat
        ≤ p.state.available_reserve_balance →
      p.stake_list.length < p.state.stake_system.stake_list_capacity →
      (U64_MOD ≤ v0.active_balance + computeStakeTarget
          (p.state.validator_system.validator_stake_target v0
            (saturatingAdd64 p.state.validator_system.total_active_balance
              (p.state.stake_delta env.reserve_lamports).toNat))
          v0.active_balance p.state.stake_system.min_stake
          (p.state.stake_delta env.reserve_lamports).toNat ∨
       U64_MOD ≤ p.state.validator_system.total_active_balance
         + computeStakeTarget
          (p.state.validator_system.validator_stake_target v0
            (saturatingAdd64 p.state.validator_system.total_active_balance
              (p.state.stake_delta env.reserve_lamports).toNat))
          v0.active_balance p.state.stake_system.min_stake
          (p.state.stake_delta env.reserve_lamports).toNat) →
      process env p i = .error .calculationFailure) := by
  constructor
  · intro env p i p' t h
    obtain ⟨v0, hv0, -, -, -, -, hab, htab2, htot, hi, hl⟩ := process_ok_some h
    refine ⟨htot, by omega, v0,
      { v0 with active_balance := v0.active_balance + t,
                last_stake_delta_epoch := env.epoch }, hv0, ?_, rfl, hab⟩
    rw [hl]
    exact List.getElem?_set_eq_of_lt _ hi
  · intro env p i v0 h1 h2 h3 h4 h5 hsd hv0 hvote hguard hw hu hres hcap hov
    have hnsd : ¬ p.state.stake_delta env.reserve_lamports ≤ 0 := by omega
    have hi : i < p.validator_list.length := by
      by_contra hge
      rw [List.getElem?_eq_none (by omega)] at hv0
      exact absurd hv0 (by simp)
    by_cases hep : v0.last_stake_delta_epoch = env.epoch
    · -- same-epoch call consuming an extra stake-delta run
      have hex1 : ¬ p.state.stake_system.extra_stake_delta_runs = 0 := by
        rcases hguard with hg | hg
        · exact absurd hep hg
        · omega
      have hproc : process env p i = afterEpochGuard env p i
          (p.state.stake_delta env.reserve_lamports).toNat
          (saturatingAdd64 p.state.validator_system.total_active_balance
            (p.state.stake_delta env.reserve_lamports).toNat)
          { p.state.stake_system with extra_stake_delta_runs :=
              p.state.stake_system.extra_stake_delta_runs - 1 }
          v0 := by
        simp [process, h1, h2, h3, h4, h5, hnsd, hv0, hvote, hep, hex1]
      rw [hproc]
      exact afterEpochGuard_overflow (by simpa using hw) (by simpa using hu)
        hres (by simpa using hcap) hi (by simpa using hov)
    · -- first action this epoch
      have hproc : process env p i = afterEpochGuard env p i
          (p.state.stake_delta env.reserve_lamports).toNat
          (saturatingAdd64 p.state.validator_system.total_active_balance
            (p.state.stake_delta env.reserve_lamports).toNat)
          p.state.stake_system
          { v0 with last_stake_delta_epoch := env.epoch } := by
        simp [process, h1, h2, h3, h4, h5, hnsd, hv0, hvote, hep]
      rw [hproc]
      exact afterEpochGuard_overflow hw (by simpa using hu) hres hcap hi
        (by simpa using hov)

/-- C7 witness: the successful run `process wEnv wPool 0` books the exact
sums below `2^64`; `process envOvf poolOvf 0` (first action this epoch) and
`process envOvf poolOvf2 0` (same-epoch call consuming an extra stake-delta
run), whose checked addition on the validator balance would overflow, both
fail with the calculation-failure error. -/
theorem C7_witness :
    (wPoolRes.state.validator_system.total_active_balance
        = wPool.state.validator_system.total_active_balance + 100 ∧
      wPoolRes.state.validator_system.total_active_balance < U64_MOD ∧
      ∃ v0 v1, wPool.validator_list[0]? = some v0 ∧
        wPoolRes.validator_list[0]? = some v1 ∧
        v1.active_balance = v0.active_balance + 100 ∧
        v1.active_balance < U64_MOD) ∧
    process envOvf poolOvf 0 = .error .calculationFailure ∧
    process envOvf poolOvf2 0 = .error .calculationFailure :=
  ⟨C7_overflow_guard.1 wEnv wPool 0 wPoolRes 100 (by rfl),
   C7_overflow_guard.2 envOvf poolOvf 0 ⟨5, U64_MOD - 3, 0, 1⟩
      rfl rfl rfl rfl rfl (by decide) rfl rfl (Or.inl (by decide)) (by decide)
      (by decide) (by decide) (by decide) (Or.inl (by decide)),
   C7_overflow_guard.2 envOvf poolOvf2 0 ⟨5, U64_MOD - 3, 7, 1⟩
      rfl rfl rfl rfl rfl (by decide) rfl rfl (Or.inr (by decide)) (by decide)
      (by decide) (by decide) (by decide) (Or.inl (by decide))⟩

/-- C8 counterexample: the stake-account state check (account not
uninitialized) and the stake-account balance check (funded with a balance
different from the rent-exempt minimum) are two different hard-failure
conditions, yet both return the same `InvalidAccountData` error code,
refuting the claim that no two hard-failure conditions share a code. -/
theorem C8_counterexample :
    process envNotUninit wPool 0 = .error .invalidAccountData ∧
    process envWrongBalance wPool 0 = .error .invalidAccountData ∧
    envNotUninit.stake_account_uninitialized = false ∧
    envWrongBalance.stake_account_uninitialized = true ∧
    envWrongBalance.stake_account_lamports ≠ envWrongBalance.rent_exempt_min :=
  ⟨by rfl, by rfl, rfl, rfl, by decide⟩

/-- C8 (amended): the hard-failure conditions of `process` surface
enumerable error codes that are pairwise distinct across conditions — the
stake-history mismatch (`InvalidArgument`), the time-window failure
(`Custom(332)`), the balance-bookkeeping overflow (`CalculationFailure`) —
except that the stake-account state check and the stake-account balance
check both surface the same `InvalidAccountData` code. -/
theorem C8_amended_error_codes :
    process envBadHistory wPool 0 = .error .invalidArgument ∧
    process envNotUninit wPool 0 = .error .invalidAccountData ∧
    process envWrongBalance wPool 0 = .error .invalidAccountData ∧
    process envWin poolWin 0 = .error .stakeDeltaWindow ∧
    process envOvf poolOvf 0 = .error .calculationFailure ∧
    (ProcessError.invalidArgument ≠ ProcessError.invalidAccountData ∧
     ProcessError.invalidArgument ≠ ProcessError.stakeDeltaWindow ∧
     ProcessError.invalidArgument ≠ ProcessError.calculationFailure ∧
     ProcessError.invalidAccountData ≠ ProcessError.stakeDeltaWindow ∧
     ProcessError.invalidAccountData ≠ ProcessError.calculationFailure ∧
     ProcessError.stakeDeltaWindow ≠ ProcessError.calculationFailure) :=
  ⟨by rfl, by rfl, by rfl, by rfl, by rfl, by decide⟩

end Marinade
